import Mathlib

/-!
Verification development for the per-device monitoring and session/cycle
layer of the MDMS repository (`src/device_communication`,
`src/business_logic`).  Python floats are modelled as rationals (all
thresholds and readings in the claims are exactly representable), Python
dicts as association lists, and methods that may raise as functions
returning `Except PyErr _` paired with the post-state (a raise happens
before any mutation unless the source mutates first).
-/

namespace Mdms

/-- Python exception classes that the modelled code can raise.  The spec's
error taxonomy maps onto them as raised by the source: `OutOfRange` and
`InvalidCycle` and `NotFound` are `ValueError`, `NotConnected` is
`RuntimeError`; `NotImplementedError`, `AttributeError`, `KeyError` keep
their names. -/
inductive PyErr where
  | valueError
  | runtimeError
  | keyError
  | notImplementedError
  | attributeError
  | typeError
deriving DecidableEq, Repr

/-- Device connection status, from `base_device.DeviceStatus`. -/
inductive DeviceStatus where
  | disconnected
  | connecting
  | connected
  | error
  | idle
deriving DecidableEq, Repr

/-- Transport type, from `base_device.ConnectionType` (informational). -/
inductive ConnectionType where
  | serial
  | usb
  | ethernet
  | bluetooth
  | wifi
  | tcp
deriving DecidableEq, Repr

/-! ### Association lists (Python dict model) -/

/-- Dict lookup `l.get(a)`. -/
def lookupKey {α β : Type} [DecidableEq α] : List (α × β) → α → Option β
  | [], _ => none
  | (k, v) :: rest, a => if k = a then some v else lookupKey rest a

/-- Dict write `l[a] = v`: replace the existing entry, else append. -/
def setKey {α β : Type} [DecidableEq α] : List (α × β) → α → β → List (α × β)
  | [], a, v => [(a, v)]
  | (k, w) :: rest, a, v =>
      if k = a then (a, v) :: rest else (k, w) :: setKey rest a v

/-- Dict deletion `del l[a]` (removes every entry with key `a`; dict keys
are unique, so at most one exists). -/
def eraseKey {α β : Type} [DecidableEq α] : List (α × β) → α → List (α × β)
  | [], _ => []
  | (k, v) :: rest, a =>
      if k = a then eraseKey rest a else (k, v) :: eraseKey rest a

theorem lookupKey_setKey_self {α β : Type} [DecidableEq α]
    (l : List (α × β)) (a : α) (v : β) : lookupKey (setKey l a v) a = some v := by
  induction l with
  | nil => simp [setKey, lookupKey]
  | cons hd tl ih =>
      obtain ⟨k, w⟩ := hd
      by_cases hk : k = a
      · simp [setKey, hk, lookupKey]
      · simp [setKey, hk, lookupKey, ih]

theorem lookupKey_setKey_ne {α β : Type} [DecidableEq α]
    (l : List (α × β)) (a b : α) (v : β) (h : a ≠ b) :
    lookupKey (setKey l a v) b = lookupKey l b := by
  induction l with
  | nil => simp [setKey, lookupKey, h]
  | cons hd tl ih =>
      obtain ⟨k, w⟩ := hd
      by_cases hk : k = a
      · subst hk
        simp [setKey, lookupKey, h]
      · simp [setKey, hk, lookupKey, ih]

theorem lookupKey_eraseKey_self {α β : Type} [DecidableEq α]
    (l : List (α × β)) (a : α) : lookupKey (eraseKey l a) a = none := by
  induction l with
  | nil => simp [eraseKey, lookupKey]
  | cons hd tl ih =>
      obtain ⟨k, w⟩ := hd
      by_cases hk : k = a
      · simp [eraseKey, hk, ih]
      · simp [eraseKey, hk, lookupKey, ih]

theorem lookupKey_eraseKey_ne {α β : Type} [DecidableEq α]
    (l : List (α × β)) (a b : α) (h : a ≠ b) :
    lookupKey (eraseKey l a) b = lookupKey l b := by
  induction l with
  | nil => simp [eraseKey]
  | cons hd tl ih =>
      obtain ⟨k, w⟩ := hd
      by_cases hk : k = a
      · have hkb : ¬ k = b := by rw [hk]; exact h
        simp [eraseKey, hk, lookupKey, hkb, h, ih]
      · simp [eraseKey, hk, lookupKey, ih]

theorem lookupKey_eq_none_of_not_mem_keys {α β : Type} [DecidableEq α]
    (l : List (α × β)) (a : α) (h : a ∉ l.map Prod.fst) :
    lookupKey l a = none := by
  induction l with
  | nil => rfl
  | cons hd tl ih =>
      obtain ⟨k, w⟩ := hd
      simp only [List.map_cons, List.mem_cons] at h
      push_neg at h
      have hka : ¬ k = a := fun hh => h.1 hh.symm
      simp [lookupKey, hka, ih h.2]

theorem keys_setKey {α β : Type} [DecidableEq α]
    (l : List (α × β)) (a : α) (v : β) :
    (setKey l a v).map Prod.fst
      = if a ∈ l.map Prod.fst then l.map Prod.fst else l.map Prod.fst ++ [a] := by
  induction l with
  | nil => simp [setKey]
  | cons hd tl ih =>
      obtain ⟨k, w⟩ := hd
      by_cases hk : k = a
      · subst hk
        simp [setKey]
      · have hne : ¬ a = k := fun hh => hk hh.symm
        by_cases hmem : a ∈ tl.map Prod.fst
        · simp [setKey, hk, ih, hmem, hne]
        · simp [setKey, hk, ih, hmem, hne]

theorem keys_eraseKey_sublist {α β : Type} [DecidableEq α]
    (l : List (α × β)) (a : α) :
    ((eraseKey l a).map Prod.fst).Sublist (l.map Prod.fst) := by
  induction l with
  | nil => simp [eraseKey]
  | cons hd tl ih =>
      obtain ⟨k, w⟩ := hd
      by_cases hk : k = a
      · simp only [eraseKey, hk, if_pos rfl, List.map_cons]
        exact ih.trans (List.sublist_cons_self _ _)
      · simpa [eraseKey, hk] using ih.cons₂ k

theorem nodup_keys_setKey {α β : Type} [DecidableEq α]
    (l : List (α × β)) (a : α) (v : β) (h : (l.map Prod.fst).Nodup) :
    ((setKey l a v).map Prod.fst).Nodup := by
  rw [keys_setKey]
  by_cases hmem : a ∈ l.map Prod.fst
  · simpa [hmem] using h
  · simpa [hmem] using List.Nodup.append h (by simp) (by simpa using hmem)

theorem nodup_keys_eraseKey {α β : Type} [DecidableEq α]
    (l : List (α × β)) (a : α) (h : (l.map Prod.fst).Nodup) :
    ((eraseKey l a).map Prod.fst).Nodup :=
  (keys_eraseKey_sublist l a).nodup h

theorem not_mem_keys_eraseKey {α β : Type} [DecidableEq α]
    (l : List (α × β)) (a : α) : a ∉ (eraseKey l a).map Prod.fst := by
  induction l with
  | nil => simp [eraseKey]
  | cons hd tl ih =>
      obtain ⟨k, w⟩ := hd
      by_cases hk : k = a
      · simpa [eraseKey, hk] using ih
      · have hak : ¬ a = k := fun hh => hk hh.symm
        simp only [eraseKey, if_neg hk, List.map_cons, List.mem_cons]
        rintro (h1 | h2)
        · exact hak h1
        · exact ih h2

theorem count_le_one_of_nodup_keys {α β : Type} [DecidableEq α]
    (l : List (α × β)) (h : (l.map Prod.fst).Nodup) (a : α) :
    (l.filter (fun p => p.1 = a)).length ≤ 1 := by
  induction l with
  | nil => simp
  | cons hd tl ih =>
      obtain ⟨k, w⟩ := hd
      simp only [List.map_cons, List.nodup_cons] at h
      by_cases hk : k = a
      · subst hk
        have hnil : tl.filter (fun p => p.1 = k) = [] := by
          rw [List.filter_eq_nil_iff]
          intro p hp hpk
          have hk2 : p.1 = k := by simpa using hpk
          exact h.1 (List.mem_map.mpr ⟨p, hp, hk2⟩)
        simp [List.filter_cons, hnil]
      · have heq : (((k, w) :: tl).filter (fun p => p.1 = a))
            = tl.filter (fun p => p.1 = a) := by
          simp [List.filter_cons, hk]
        rw [heq]
        exact ih h.2

/-! ### HeatingBed device (`device_communication/heating_bed.py`) -/

/-- State of a `HeatingBed` instance.  Safety limits are the constants
`min_temp = 20.0`, `max_temp = 42.0` from `__init__`. -/
structure HeatingBedState where
  location : String
  target_temperature : ℚ
  current_temperature : ℚ
  is_heating : Bool
  status : DeviceStatus
deriving DecidableEq, Repr

/-- `HeatingBed.__init__`: defaults target and current temperature to 37.0,
not heating, status inherited from `BaseDevice` (`Disconnected`). -/
def HeatingBed.init (location : String) : HeatingBedState :=
  ⟨location, 37, 37, false, .disconnected⟩

/-- `HeatingBed.set_temperature`: raises `ValueError` (the spec's
`OutOfRange`) when the target is below 20.0 or above 42.0, before any
mutation; otherwise stores the new target temperature. -/
def HeatingBed.set_temperature (temp : ℚ) (s : HeatingBedState) :
    Except PyErr Unit × HeatingBedState :=
  if temp < 20 ∨ 42 < temp then (.error .valueError, s)
  else (.ok (), { s with target_temperature := temp })

/-! ### Sterilizer device (`device_communication/sterilizer.py`) -/

/-- Status of a sterilization cycle record. -/
inductive CycleStatus where
  | running
  | aborted
deriving DecidableEq, Repr

/-- A cycle record stored in `active_cycles`. -/
structure Cycle where
  cycle_type : String
  temperature : ℚ
  duration : Int
  start_time : ℚ
  cstatus : CycleStatus
deriving DecidableEq, Repr

/-- State of a `Sterilizer` instance.  `uuid.uuid4()` id generation is
modelled by the counter `nextId`; freshness is relative to the invariant
that every key of `active_cycles` is below `nextId`. -/
structure SterilizerState where
  status : DeviceStatus
  active_cycles : List (Nat × Cycle)
  nextId : Nat
deriving DecidableEq, Repr

/-- The preset table `_cycle_types` from `Sterilizer.__init__`:
`standard: 134°C/20min`, `quick: 134°C/10min`, `delicate: 121°C/30min`. -/
def cycleTypes (ct : String) : Option (ℚ × Int) :=
  if ct = "standard" then some (134, 20)
  else if ct = "quick" then some (134, 10)
  else if ct = "delicate" then some (121, 30)
  else none

/-- `Sterilizer.start_cycle(temperature=None, duration=None, cycle_type)`.
Raises `RuntimeError` (`NotConnected`) unless connected.  `cycle_params`
starts as a copy of the preset for `cycle_type` (empty dict for an unknown
type) and each explicit argument overrides its field.  An empty
`cycle_params` raises `ValueError` (`InvalidCycle`); a partially filled one
(unknown type with exactly one explicit argument) raises `KeyError` at
`cycle_params['temp']`/`['duration']`.  Otherwise a record with status
`running` is stored under a fresh id. -/
def Sterilizer.start_cycle (temperature : Option ℚ) (duration : Option Int)
    (cycle_type : String) (now : ℚ) (s : SterilizerState) :
    Except PyErr Nat × SterilizerState :=
  if s.status ≠ .connected then (.error .runtimeError, s)
  else
    let base := cycleTypes cycle_type
    let tempP : Option ℚ :=
      match temperature with
      | some t => some t
      | none => base.map Prod.fst
    let durP : Option Int :=
      match duration with
      | some d => some d
      | none => base.map Prod.snd
    if tempP = none ∧ durP = none then (.error .valueError, s)
    else
      match tempP, durP with
      | some tv, some dv =>
          (.ok s.nextId,
           { s with
               active_cycles :=
                 setKey s.active_cycles s.nextId ⟨cycle_type, tv, dv, now, .running⟩,
               nextId := s.nextId + 1 })
      | _, _ => (.error .keyError, s)

/-! ### PhototherapyLight device (`device_communication/phototherapy_light.py`) -/

/-- Status of a phototherapy session record. -/
inductive SessionStatus where
  | running
  | completed
deriving DecidableEq, Repr

/-- A session record stored in `active_sessions`. -/
structure PhotoSession where
  duration : Int
  intensity : Int
  start_time : ℚ
  pstatus : SessionStatus
deriving DecidableEq, Repr

/-- State of a `PhototherapyLight` instance; `uuid.uuid4()` modelled by the
counter `nextId` as for `Sterilizer`. -/
structure PhotoState where
  status : DeviceStatus
  active_sessions : List (Nat × PhotoSession)
  nextId : Nat
deriving DecidableEq, Repr

/-- `PhototherapyLight.start_session(duration, intensity)`: raises
`RuntimeError` (`NotConnected`) unless connected, then `ValueError`
(`OutOfRange`) unless `0 <= intensity <= 100`; otherwise stores a record
with status `running` under a fresh id. -/
def PhototherapyLight.start_session (duration intensity : Int) (now : ℚ)
    (s : PhotoState) : Except PyErr Nat × PhotoState :=
  if s.status ≠ .connected then (.error .runtimeError, s)
  else if ¬ (0 ≤ intensity ∧ intensity ≤ 100) then (.error .valueError, s)
  else
    (.ok s.nextId,
     { s with
         active_sessions :=
           setKey s.active_sessions s.nextId ⟨duration, intensity, now, .running⟩,
         nextId := s.nextId + 1 })

/-- `PhototherapyLight.get_session(session_id)`: raises `ValueError`
(`NotFound`) for an unknown id, else returns the record. -/
def PhototherapyLight.get_session (session_id : Nat) (s : PhotoState) :
    Except PyErr PhotoSession :=
  match lookupKey s.active_sessions session_id with
  | none => .error .valueError
  | some sess => .ok sess

/-! ### SurgicalLight device (`device_communication/surgical_light.py`) -/

/-- Python runtime values passed to `set_parameter` (the value kinds the
repository passes: ints, floats, booleans and `None`). -/
inductive PyVal where
  | vint (n : Int)
  | vfloat (q : ℚ)
  | vbool (b : Bool)
  | vnone
deriving DecidableEq, Repr

/-- Python `float(value)`: succeeds on ints, floats and booleans
(`float(True) = 1.0`); raises `TypeError` on `None` (modelled as `none`). -/
def pyFloat : PyVal → Option ℚ
  | .vint n => some (n : ℚ)
  | .vfloat q => some q
  | .vbool b => some (if b then 1 else 0)
  | .vnone => none

/-- Python `bool(value)` (truthiness); never raises for these kinds. -/
def pyTruthy : PyVal → Bool
  | .vint n => n ≠ 0
  | .vfloat q => q ≠ 0
  | .vbool b => b
  | .vnone => false

/-- State of a `SurgicalLight` instance (`light_intensity`/`focus_position`
start at 0, camera off). -/
structure SurgicalLightState where
  status : DeviceStatus
  light_intensity : ℚ
  focus_position : ℚ
  camera_active : Bool
deriving DecidableEq, Repr

/-- `SurgicalLight.__init__`. -/
def SurgicalLight.init : SurgicalLightState := ⟨.disconnected, 0, 0, false⟩

/-- `SurgicalLight.set_parameter(parameter, value)`: returns false for a
name outside `_supported_parameters`; for the numeric parameters it
converts with `float(value)` (a `ValueError`/`TypeError` is caught and
yields false) and accepts exactly the conversions inside `[0, 100]`,
storing the converted float; `camera_active` stores `bool(value)` and
always returns true.  The try/except makes the method total. -/
def SurgicalLight.set_parameter (parameter : String) (value : PyVal)
    (s : SurgicalLightState) : Bool × SurgicalLightState :=
  if parameter ≠ "light_intensity" ∧ parameter ≠ "focus_position" ∧
      parameter ≠ "camera_active" then (false, s)
  else if parameter = "light_intensity" then
    match pyFloat value with
    | some x => if 0 ≤ x ∧ x ≤ 100 then (true, { s with light_intensity := x })
                else (false, s)
    | none => (false, s)
  else if parameter = "focus_position" then
    match pyFloat value with
    | some x => if 0 ≤ x ∧ x ≤ 100 then (true, { s with focus_position := x })
                else (false, s)
    | none => (false, s)
  else (true, { s with camera_active := pyTruthy value })

/-- The claim's and spec's notion of a type-correct value for a surgical
light parameter, written from the spec's words: the numeric parameters
`light_intensity`/`focus_position` take numbers in `[0, 100]`,
`camera_active` takes a boolean. -/
def specTypeCorrect (parameter : String) (value : PyVal) : Bool :=
  if parameter = "light_intensity" ∨ parameter = "focus_position" then
    match value with
    | .vint _ => true
    | .vfloat _ => true
    | _ => false
  else if parameter = "camera_active" then
    match value with
    | .vbool _ => true
    | _ => false
  else false

/-! ### Device variants and `DeviceService`
(`device_communication/base_device.py`, `business_logic/device_service.py`) -/

/-- A live device instance: one of the four concrete `BaseDevice`
subclasses, carrying its state. -/
inductive Device where
  | heatingBed (s : HeatingBedState)
  | phototherapyLight (s : PhotoState)
  | sterilizer (s : SterilizerState)
  | surgicalLight (s : SurgicalLightState)
deriving DecidableEq, Repr

/-- Method resolution for `get_status`: only `SurgicalLight` overrides it;
the other variants inherit `BaseDevice.get_status`, which raises
`NotImplementedError`. -/
def Device.get_status : Device → Except PyErr DeviceStatus
  | .surgicalLight sl => .ok sl.status
  | _ => .error .notImplementedError

/-- Method resolution for `get_parameters`: only `SurgicalLight` overrides
it (returning its three parameters); the others inherit the raising
`BaseDevice.get_parameters`. -/
def Device.get_parameters : Device → Except PyErr (List (String × PyVal))
  | .surgicalLight sl =>
      .ok [("light_intensity", .vfloat sl.light_intensity),
           ("focus_position", .vfloat sl.focus_position),
           ("camera_active", .vbool sl.camera_active)]
  | _ => .error .notImplementedError

/-- Attribute access `device.last_update`: no variant (nor `BaseDevice`)
ever assigns a `last_update` attribute, so the access raises
`AttributeError` on every device. -/
def Device.last_update : Device → Except PyErr ℚ :=
  fun _ => .error .attributeError

/-- Method call `device_instance.start_monitoring()` in
`DeviceService.connect_device`: no device class defines
`start_monitoring`, so the attribute access raises `AttributeError`. -/
def Device.start_monitoring : Device → Except PyErr Unit :=
  fun _ => .error .attributeError

/-- `device.connect()` per variant: each simulated transport sets status to
`Connected` and returns true (the `SurgicalLight` exception branch is
unreachable in the simulation). -/
def Device.connect : Device → Bool × Device
  | .heatingBed hb => (true, .heatingBed { hb with status := .connected })
  | .phototherapyLight p => (true, .phototherapyLight { p with status := .connected })
  | .sterilizer st => (true, .sterilizer { st with status := .connected })
  | .surgicalLight sl => (true, .surgicalLight { sl with status := .connected })

/-- A Python dict key as used by `DeviceService._active_devices`: entries
are inserted under `str(device_id)` while `connect_device` tests membership
of the raw `int`, and `1 != "1"` in Python, so the two key kinds never
compare equal. -/
inductive PyKey where
  | pint (n : Int)
  | pstr (s : String)
deriving DecidableEq, Repr

/-- The persisted `Device` row fields that `connect_device` reads. -/
structure DeviceRecord where
  model : String
  dstatus : DeviceStatus
deriving DecidableEq, Repr

/-- State of a `DeviceService`: the in-memory session store
`_active_devices` plus the database table of device rows. -/
structure DSState where
  activeDevices : List (PyKey × Device)
  db : List (Int × DeviceRecord)
deriving DecidableEq, Repr

/-- The call `DeviceFactory.create_device(device_record.model, str(device_id),
connection_type)` in `connect_device`: `create_device` is an instance
method invoked on the class, so `self` is bound to the model string and
`self._device_types` raises `AttributeError` before any device is
constructed. -/
def deviceFactoryCreateClassCall (_model : String) (_deviceId : String)
    (_ct : ConnectionType) : Except PyErr Device :=
  .error .attributeError

/-- `DeviceService.connect_device(device_id, connection_type)`: returns
false if the id has no database row; tests `device_id not in
_active_devices` with the raw int against string keys; inside the try
block the factory call raises (`deviceFactoryCreateClassCall`), caught by
the bare `except` returning false.  The remaining branch transcribes the
source (store insertion and status persistence happen before
`start_monitoring`, whose failure is also caught after the mutation). -/
def DeviceService.connect_device (device_id : Int) (ct : ConnectionType)
    (s : DSState) : Bool × DSState :=
  match lookupKey s.db device_id with
  | none => (false, s)
  | some record =>
      if (lookupKey s.activeDevices (.pint device_id)).isNone then
        match deviceFactoryCreateClassCall record.model (toString device_id) ct with
        | .error _ => (false, s)
        | .ok inst =>
            let c := Device.connect inst
            if c.1 then
              let s' : DSState :=
                { activeDevices :=
                    setKey s.activeDevices (.pstr (toString device_id)) c.2,
                  db := setKey s.db device_id { record with dstatus := .connected } }
              match Device.start_monitoring c.2 with
              | .error _ => (false, s')
              | .ok _ => (true, s')
            else (false, s)
      else (false, s)

/-- The result dict of `DeviceService.get_device_status`. -/
structure StatusResult where
  status : DeviceStatus
  parameters : List (String × PyVal)
  last_update : ℚ
deriving DecidableEq, Repr

/-- `DeviceService.get_device_status(device_id)`: returns `None` when
`str(device_id)` is not a key of the store; otherwise reads
`device.get_status()`, `device.get_parameters()` and
`device.last_update`, propagating whatever they raise. -/
def DeviceService.get_device_status (device_id : Int) (s : DSState) :
    Except PyErr (Option StatusResult) :=
  match lookupKey s.activeDevices (.pstr (toString device_id)) with
  | none => .ok none
  | some dev =>
      match dev.get_status with
      | .error e => .error e
      | .ok st =>
          match dev.get_parameters with
          | .error e => .error e
          | .ok ps =>
              match dev.last_update with
              | .error e => .error e
              | .ok lu => .ok (some ⟨st, ps, lu⟩)

/-- `HeatingBedManager.connect_bed(device_id)`: connects through the
service and starts `_monitor_temperature` (registering the task under
`str(device_id)` in `_monitoring_tasks`) only when the connect reported
success. -/
def HeatingBedManager.connect_bed (device_id : Int) (tasks : List String)
    (s : DSState) : Bool × DSState × List String :=
  let c := DeviceService.connect_device device_id .serial s
  if c.1 then
    (true, c.2,
     if toString device_id ∈ tasks then tasks else tasks ++ [toString device_id])
  else (false, c.2, tasks)

/-! ### Heating-bed monitor loop (`business_logic/heating_bed_manager.py`)

The loop body `_monitor_temperature` is embedded as a step function over
its per-iteration inputs.  Per spec section 6, the status/parameter
accessor is the loop's single read path; each iteration's fetched
parameters (`current_temperature`, `target_temperature`, both optional)
are an input of the step, with `none` also covering a fetch that failed or
returned nothing.  Time is measured in minutes (the debounce window
`timedelta(minutes=5)` becomes the rational 5). -/

/-- The tracked entry of `_temperature_alerts` for one device:
`first_detected` timestamp and the `alert_sent` flag. -/
structure TempAlert where
  firstDetected : ℚ
  alertSent : Bool
deriving DecidableEq, Repr

/-- Alert severity, from `_handle_temperature_alert`. -/
inductive Severity where
  | low
  | medium
  | high
deriving DecidableEq, Repr

/-- Modelled from the spec: `record_device_alert` is absent from the
source's `DeviceService` (only its call sites exist); spec sections 4.5 and
6 define the alert sink as fire-and-forget and always succeeding, so
recording an alert is modelled as returning the emitted record's severity.
`_handle_temperature_alert` itself records only when
`get_device_by_id(device_id)` finds a row (`dbHasDevice`); severity is
`high` for a deviation above 2.0°C, else `medium`. -/
def handleTemperatureAlert (dbHasDevice : Bool) (currentTemp targetTemp : ℚ) :
    Option Severity :=
  if dbHasDevice then
    some (if 2 < |currentTemp - targetTemp| then .high else .medium)
  else none

/-- One iteration of `_monitor_temperature` for one device, acting on that
device's tracked entry (`none` = no entry).  Returns the new entry and the
alert record emitted this iteration, if any.  A missing fetch or missing
temperature leaves the entry untouched; a deviation beyond 1.0°C arms an
entry at first detection and fires once the elapsed time strictly exceeds
the 5-minute window; a reading back within the threshold deletes the
entry. -/
def hbMonitorStep (dbHasDevice : Bool) (now : ℚ)
    (reading : Option (Option ℚ × Option ℚ)) (st : Option TempAlert) :
    Option TempAlert × Option Severity :=
  match reading with
  | none => (st, none)
  | some (curO, tgtO) =>
      match curO, tgtO with
      | some cur, some tgt =>
          if 1 < |cur - tgt| then
            let a := st.getD ⟨now, false⟩
            if a.alertSent = false ∧ 5 < now - a.firstDetected then
              (some { a with alertSent := true }, handleTemperatureAlert dbHasDevice cur tgt)
            else (some a, none)
          else (none, none)
      | _, _ => (st, none)

/-- Run of the heating-bed monitor: fold `hbMonitorStep` over a list of
polls `(now, fetched parameters)`, counting emitted alert records. -/
def hbMonitorRun (dbHasDevice : Bool) :
    List (ℚ × Option (Option ℚ × Option ℚ)) → Option TempAlert →
    Option TempAlert × Nat
  | [], st => (st, 0)
  | (now, r) :: rest, st =>
      let step := hbMonitorStep dbHasDevice now r st
      let tail := hbMonitorRun dbHasDevice rest step.1
      (tail.1, (if step.2.isSome then 1 else 0) + tail.2)

/-- Polls in which both temperatures were fetched: `(time, current,
target)`. -/
def devPolls : List (ℚ × ℚ × ℚ) → List (ℚ × Option (Option ℚ × Option ℚ)) :=
  List.map (fun x => (x.1, some (some x.2.1, some x.2.2)))

/-- All polls of the list deviate beyond the 1.0°C threshold. -/
def allDev (l : List (ℚ × ℚ × ℚ)) : Prop :=
  ∀ x ∈ l, 1 < |x.2.1 - x.2.2|

/-! ### Sterilizer monitor loop (`business_logic/sterilizer_manager.py`) -/

/-- The `cycle_info` dict read by `_monitor_cycle` (each field via
`.get`, so each may be missing; `params.get('cycle_info', {})` makes the
all-`none` record the missing-dict default). -/
structure SterCycleInfo where
  current_temperature : Option ℚ
  target_temperature : Option ℚ
  current_pressure : Option ℚ
  target_pressure : Option ℚ
deriving DecidableEq, Repr

/-- The fetched parameters of one sterilizer poll. -/
structure SterParams where
  cycle_active : Bool
  cycle_info : SterCycleInfo
deriving DecidableEq, Repr

/-- One iteration of `_monitor_cycle`: with an active cycle, the guard
`if current_temp and target_temp and current_pressure and target_pressure`
is Python truthiness, so every reading must be present and non-zero; then a
temperature deviation above 2.0 or a pressure deviation above 0.2 calls
`_handle_cycle_alert`, which records (always succeeding per spec section
4.5) iff the device row exists.  Returns whether an alert record was
emitted; the loop keeps no state between iterations. -/
def sterMonitorStep (dbHasDevice : Bool) (p : Option SterParams) : Bool :=
  match p with
  | none => false
  | some pp =>
      if pp.cycle_active then
        match pp.cycle_info.current_temperature, pp.cycle_info.target_temperature,
              pp.cycle_info.current_pressure, pp.cycle_info.target_pressure with
        | some ct, some tt, some cp, some tp =>
            if ct ≠ 0 ∧ tt ≠ 0 ∧ cp ≠ 0 ∧ tp ≠ 0 then
              if 2 < |ct - tt| ∨ 1/5 < |cp - tp| then dbHasDevice else false
            else false
        | _, _, _, _ => false
      else false

/-- Run of the sterilizer monitor over a list of polls, counting emitted
alert records. -/
def sterMonitorRun (dbHasDevice : Bool) : List (Option SterParams) → Nat
  | [] => 0
  | p :: rest =>
      (if sterMonitorStep dbHasDevice p then 1 else 0) + sterMonitorRun dbHasDevice rest

/-! ### Phototherapy monitor loop (`business_logic/phototherapy_manager.py`) -/

/-- Alert kinds emitted by `_monitor_session`. -/
inductive PhotoAlertKind where
  | sessionEnding
  | intensityDeviation
deriving DecidableEq, Repr

/-- The `session_info` dict of one phototherapy poll: `start_time` and
`planned_duration_minutes` are accessed with `[...]` (required — a missing
key raises, aborting the iteration), `light_intensity` with
`.get(..., 100)`. -/
structure PhotoSessionInfo where
  start_time : ℚ
  planned_duration_minutes : ℚ
  light_intensity : Option ℚ
deriving DecidableEq, Repr

/-- The fetched parameters of one phototherapy poll; `session_info = none`
models the `.get('session_info', {})` default whose `['start_time']` lookup
raises `KeyError` (caught by the loop). -/
structure PhotoParams where
  session_active : Bool
  session_info : Option PhotoSessionInfo
  current_intensity : Option ℚ
deriving DecidableEq, Repr

/-- One iteration of `_monitor_session`: with an active session, fires
`session_ending` when the remaining time is at most the 15-minute
threshold, and `intensity_deviation` when the current intensity deviates
from `session_info.get('light_intensity', 100)` by more than 5.  Each
handler records (sink always succeeds per spec section 4.5) iff the device
row exists; no state is kept between iterations. -/
def photoMonitorStep (dbHasDevice : Bool) (now : ℚ) (p : Option PhotoParams) :
    List PhotoAlertKind :=
  match p with
  | none => []
  | some pp =>
      if pp.session_active then
        match pp.session_info with
        | none => []
        | some info =>
            let remaining := info.planned_duration_minutes - (now - info.start_time)
            (if remaining ≤ 15 ∧ dbHasDevice then [.sessionEnding] else []) ++
            (match pp.current_intensity with
             | none => []
             | some ci =>
                 if 5 < |ci - info.light_intensity.getD 100| ∧ dbHasDevice then
                   [.intensityDeviation]
                 else [])
      else []

/-- Run of the phototherapy monitor over a list of polls, counting emitted
`intensity_deviation` records. -/
def photoMonitorRunIntensity (dbHasDevice : Bool) :
    List (ℚ × Option PhotoParams) → Nat
  | [] => 0
  | (now, p) :: rest =>
      (if PhotoAlertKind.intensityDeviation ∈ photoMonitorStep dbHasDevice now p
       then 1 else 0) + photoMonitorRunIntensity dbHasDevice rest

/-! ### Surgical-light monitor loop (`business_logic/surgical_light_manager.py`) -/

/-- One iteration of `_monitor_light`: reads
`params.get('light_intensity')` from the fetched parameters (outer `none` =
no fetch, inner `none` = key missing) and invokes `_handle_alert` (which
only prints) whenever the intensity is below 10.  Returns whether the alert
handler fired; no state is kept between iterations. -/
def slMonitorStep (p : Option (Option ℚ)) : Bool :=
  match p with
  | some (some v) => v < 10
  | _ => false

/-- Run of the surgical-light monitor over a list of polls, counting alert
emissions. -/
def slMonitorRun : List (Option (Option ℚ)) → Nat
  | [] => 0
  | p :: rest => (if slMonitorStep p then 1 else 0) + slMonitorRun rest

/-! ### HeatingBedManager alert-table state machine

`HeatingBedManager` holds `_monitoring_tasks` (dict keyed by
`str(device_id)`, modelled by its key list) and `_temperature_alerts`
(dict keyed by `str(device_id)`; the alert kind is the constant
`temperature_deviation`).  Events: `_start_temperature_monitoring`, one
iteration of a device's `_monitor_temperature` task, and
`stop_monitoring`.  An iteration can only run while the device's task is
registered: `stop_monitoring` cancels the task, and `CancelledError` is a
`BaseException` the loop's `except Exception` does not catch, so a
cancelled task performs no further iterations. -/

/-- Table update performed by one `_monitor_temperature` iteration for
device `d` on the shared `_temperature_alerts` dict. -/
def hbIterTable (d : Int) (dbHasDevice : Bool) (now : ℚ)
    (reading : Option (Option ℚ × Option ℚ)) (al : List (String × TempAlert)) :
    List (String × TempAlert) :=
  match (hbMonitorStep dbHasDevice now reading (lookupKey al (toString d))).1 with
  | some a => setKey al (toString d) a
  | none => eraseKey al (toString d)

/-- State of a `HeatingBedManager`. -/
structure HBMgrState where
  tasks : List String
  alerts : List (String × TempAlert)

/-- Events of the heating-bed monitoring system. -/
inductive HBMgrEvent where
  | startMon (d : Int)
  | iter (d : Int) (dbHasDevice : Bool) (now : ℚ)
      (reading : Option (Option ℚ × Option ℚ))
  | stopMon (d : Int)

/-- Transition function: `_start_temperature_monitoring` registers a task
unless one exists; an `iter` runs one loop iteration while the task is
registered; `stop_monitoring` cancels and deregisters the task and deletes
the device's alert entry (both only when the task exists). -/
def HBMgrState.step (s : HBMgrState) : HBMgrEvent → HBMgrState
  | .startMon d =>
      if toString d ∈ s.tasks then s
      else { s with tasks := s.tasks ++ [toString d] }
  | .iter d dbHasDevice now reading =>
      if toString d ∈ s.tasks then
        { s with alerts := hbIterTable d dbHasDevice now reading s.alerts }
      else s
  | .stopMon d =>
      if toString d ∈ s.tasks then
        { tasks := s.tasks.erase (toString d),
          alerts := eraseKey s.alerts (toString d) }
      else s

/-- Reachable manager states: a fresh manager has no tasks and no alerts,
and states are closed under the events. -/
inductive HBMgrState.Reachable : HBMgrState → Prop
  | init : HBMgrState.Reachable ⟨[], []⟩
  | step {s : HBMgrState} (e : HBMgrEvent) :
      HBMgrState.Reachable s → HBMgrState.Reachable (s.step e)

/-- The alert-table invariant: keys are unique, and every alert entry
belongs to a device with a registered monitor task. -/
def HBMgrState.Inv (s : HBMgrState) : Prop :=
  (s.alerts.map Prod.fst).Nodup ∧
  ∀ k ∈ s.alerts.map Prod.fst, k ∈ s.tasks

theorem hbIterTable_keys_cases (d : Int) (dbHasDevice : Bool) (now : ℚ)
    (reading : Option (Option ℚ × Option ℚ)) (al : List (String × TempAlert))
    (h : (al.map Prod.fst).Nodup) :
    ((hbIterTable d dbHasDevice now reading al).map Prod.fst).Nodup ∧
    ∀ k ∈ (hbIterTable d dbHasDevice now reading al).map Prod.fst,
      k ∈ al.map Prod.fst ∨ k = toString d := by
  unfold hbIterTable
  cases hstep : (hbMonitorStep dbHasDevice now reading (lookupKey al (toString d))).1 with
  | none =>
      refine ⟨nodup_keys_eraseKey al (toString d) h, ?_⟩
      intro k hk
      exact Or.inl ((keys_eraseKey_sublist al (toString d)).mem hk)
  | some a =>
      refine ⟨nodup_keys_setKey al (toString d) a h, ?_⟩
      intro k hk
      rw [keys_setKey] at hk
      by_cases hmem : toString d ∈ al.map Prod.fst
      · rw [if_pos hmem] at hk
        exact Or.inl hk
      · rw [if_neg hmem] at hk
        rcases List.mem_append.mp hk with h1 | h2
        · exact Or.inl h1
        · exact Or.inr (by simpa using h2)

theorem HBMgrState.inv_step (s : HBMgrState) (e : HBMgrEvent) (h : s.Inv) :
    (s.step e).Inv := by
  obtain ⟨hnd, hsub⟩ := h
  cases e with
  | startMon d =>
      by_cases hmem : toString d ∈ s.tasks
      · simpa [HBMgrState.step, hmem] using ⟨hnd, hsub⟩
      · refine ⟨by simpa [HBMgrState.step, hmem] using hnd, ?_⟩
        intro k hk
        simp only [HBMgrState.step, hmem, if_neg, ite_false] at hk ⊢
        exact List.mem_append.mpr (Or.inl (hsub k (by simpa using hk)))
  | iter d dbHasDevice now reading =>
      by_cases hmem : toString d ∈ s.tasks
      · have hc := hbIterTable_keys_cases d dbHasDevice now reading s.alerts hnd
        refine ⟨by simpa [HBMgrState.step, hmem] using hc.1, ?_⟩
        intro k hk
        simp only [HBMgrState.step, hmem, ite_true] at hk ⊢
        rcases hc.2 k (by simpa using hk) with h1 | h2
        · exact hsub k h1
        · exact h2 ▸ hmem
      · simpa [HBMgrState.step, hmem] using ⟨hnd, hsub⟩
  | stopMon d =>
      by_cases hmem : toString d ∈ s.tasks
      · refine ⟨?_, ?_⟩
        · simpa [HBMgrState.step, hmem] using
            nodup_keys_eraseKey s.alerts (toString d) hnd
        · intro k hk
          simp only [HBMgrState.step, hmem, ite_true] at hk ⊢
          have hkal : k ∈ s.alerts.map Prod.fst :=
            (keys_eraseKey_sublist s.alerts (toString d)).mem hk
          have hkd : k ≠ toString d := by
            intro hh
            exact not_mem_keys_eraseKey s.alerts (toString d) (hh ▸ hk)
          exact List.mem_erase_of_ne hkd |>.mpr (hsub k hkal)
      · simpa [HBMgrState.step, hmem] using ⟨hnd, hsub⟩

theorem HBMgrState.inv_of_reachable (s : HBMgrState) (h : s.Reachable) : s.Inv := by
  induction h with
  | init => exact ⟨List.nodup_nil, by intro k hk; cases hk⟩
  | step e _ ih => exact HBMgrState.inv_step _ e ih

/-! ### Debounce lemmas for the heating-bed monitor run -/

theorem hbMonitorStep_dev (dbHasDevice : Bool) (now cur tgt : ℚ)
    (st : Option TempAlert) (hdev : 1 < |cur - tgt|) :
    hbMonitorStep dbHasDevice now (some (some cur, some tgt)) st =
      (let a := st.getD ⟨now, false⟩
       if a.alertSent = false ∧ 5 < now - a.firstDetected then
         (some { a with alertSent := true }, handleTemperatureAlert dbHasDevice cur tgt)
       else (some a, none)) := by
  simp [hbMonitorStep, hdev]

theorem hbMonitorRun_dev_sent (l : List (ℚ × ℚ × ℚ)) (t₀ : ℚ)
    (h : allDev l) :
    hbMonitorRun true (devPolls l) (some ⟨t₀, true⟩) = (some ⟨t₀, true⟩, 0) := by
  induction l with
  | nil => rfl
  | cons hd tl ih =>
      obtain ⟨t, c, g⟩ := hd
      have hdev : 1 < |c - g| := h (t, c, g) (List.mem_cons_self _ _)
      have htl : allDev tl := fun x hx => h x (List.mem_cons_of_mem _ hx)
      simp only [devPolls, List.map_cons, hbMonitorRun]
      rw [hbMonitorStep_dev true t c g (some ⟨t₀, true⟩) hdev]
      simp only [Option.getD_some]
      rw [if_neg (by simp)]
      simpa [devPolls] using ih htl

theorem hbMonitorRun_dev_unsent (l : List (ℚ × ℚ × ℚ)) (t₀ : ℚ)
    (h : allDev l) :
    hbMonitorRun true (devPolls l) (some ⟨t₀, false⟩) =
      if ∃ x ∈ l, 5 < x.1 - t₀ then (some ⟨t₀, true⟩, 1)
      else (some ⟨t₀, false⟩, 0) := by
  induction l with
  | nil => simp [devPolls, hbMonitorRun]
  | cons hd tl ih =>
      obtain ⟨t, c, g⟩ := hd
      have hdev : 1 < |c - g| := h (t, c, g) (List.mem_cons_self _ _)
      have htl : allDev tl := fun x hx => h x (List.mem_cons_of_mem _ hx)
      simp only [devPolls, List.map_cons, hbMonitorRun]
      rw [hbMonitorStep_dev true t c g (some ⟨t₀, false⟩) hdev]
      simp only [Option.getD_some]
      by_cases hfire : 5 < t - t₀
      · rw [if_pos (by simp [hfire])]
        have hrest := hbMonitorRun_dev_sent tl t₀ htl
        have hex : ∃ x ∈ (t, c, g) :: tl, 5 < x.1 - t₀ :=
          ⟨(t, c, g), List.mem_cons_self _ _, hfire⟩
        simp only [devPolls] at hrest
        rw [if_pos hex]
        simp [hrest, handleTemperatureAlert]
      · rw [if_neg (by simp [hfire])]
        have := ih htl
        simp only [devPolls] at this
        rw [this]
        by_cases hex : ∃ x ∈ tl, 5 < x.1 - t₀
        · have hex2 : ∃ x ∈ (t, c, g) :: tl, 5 < x.1 - t₀ :=
            hex.elim (fun x hx => ⟨x, List.mem_cons_of_mem _ hx.1, hx.2⟩)
          rw [if_pos hex, if_pos hex2]
          simp
        · have hex2 : ¬ ∃ x ∈ (t, c, g) :: tl, 5 < x.1 - t₀ := by
            rintro ⟨x, hx, hx5⟩
            rcases List.mem_cons.mp hx with h1 | h2
            · rw [h1] at hx5
              exact hfire hx5
            · exact hex ⟨x, h2, hx5⟩
          rw [if_neg hex, if_neg hex2]
          simp

/-! ### Claim theorems -/

/-- Claim C2: `HeatingBed.set_temperature(t)` succeeds iff
`20.0 <= t <= 42.0`; outside that closed range it fails with `OutOfRange`
(`ValueError`) leaving the whole device state unchanged; in range the
target temperature becomes `t` and nothing else changes. -/
theorem C2_set_temperature (t : ℚ) (s : HeatingBedState) :
    ((HeatingBed.set_temperature t s).1 = .ok () ↔ 20 ≤ t ∧ t ≤ 42)
    ∧ (20 ≤ t ∧ t ≤ 42 →
        HeatingBed.set_temperature t s = (.ok (), { s with target_temperature := t }))
    ∧ (¬ (20 ≤ t ∧ t ≤ 42) →
        HeatingBed.set_temperature t s = (.error .valueError, s)) := by
  unfold HeatingBed.set_temperature
  by_cases h : t < 20 ∨ 42 < t
  · have h2 : ¬ (20 ≤ t ∧ t ≤ 42) := by
      rcases h with h | h
      · exact fun hh => absurd hh.1 (not_le.mpr h)
      · exact fun hh => absurd hh.2 (not_le.mpr h)
    simp [h, h2]
  · push_neg at h
    have h2 : 20 ≤ t ∧ t ≤ 42 := ⟨h.1, h.2⟩
    have h3 : ¬ (t < 20 ∨ 42 < t) := by
      push_neg
      exact h
    simp [h3, h2]

/-- Witness for C2 at concrete temperatures: 37.0 is accepted and 50.0 is
rejected without mutation. -/
theorem C2_set_temperature_witness :
    ((HeatingBed.set_temperature 37 (HeatingBed.init "ward")).1 = .ok () ↔
      20 ≤ (37 : ℚ) ∧ (37 : ℚ) ≤ 42)
    ∧ HeatingBed.set_temperature 50 (HeatingBed.init "ward") =
        (.error .valueError, HeatingBed.init "ward") :=
  ⟨(C2_set_temperature 37 (HeatingBed.init "ward")).1,
   (C2_set_temperature 50 (HeatingBed.init "ward")).2.2 (by norm_num)⟩

theorem hbMonitorRun_dev_none (t₀ c₀ g₀ : ℚ) (rest : List (ℚ × ℚ × ℚ))
    (h₀ : 1 < |c₀ - g₀|) (h : allDev rest) :
    hbMonitorRun true (devPolls ((t₀, c₀, g₀) :: rest)) none =
      if ∃ x ∈ rest, 5 < x.1 - t₀ then (some ⟨t₀, true⟩, 1)
      else (some ⟨t₀, false⟩, 0) := by
  simp only [devPolls, List.map_cons, hbMonitorRun]
  rw [hbMonitorStep_dev true t₀ c₀ g₀ none h₀]
  simp only [Option.getD_none]
  rw [if_neg (by norm_num)]
  have hrest := hbMonitorRun_dev_unsent rest t₀ h
  simp only [devPolls] at hrest
  rw [hrest]
  by_cases hex : ∃ x ∈ rest, 5 < x.1 - t₀
  · rw [if_pos hex]
    simp
  · rw [if_neg hex]
    simp

/-- Claim C1, counterexample: a deviation observed at minutes 0 and 5 has
been sustained for (at least) 5 minutes at the second poll, yet the run
emits no alert, because `_monitor_temperature` fires only when the elapsed
time strictly exceeds `timedelta(minutes=5)`. -/
theorem C1_counterexample :
    allDev [((0 : ℚ), 39, 37), (5, 39, 37)]
    ∧ (5 : ℚ) - 0 ≥ 5
    ∧ (hbMonitorRun true (devPolls [((0 : ℚ), 39, 37), (5, 39, 37)]) none).2 = 0 := by
  have hdev : (1 : ℚ) < |(39 : ℚ) - 37| := by
    rw [show ((39 : ℚ) - 37) = 2 by norm_num,
        abs_of_pos (by norm_num : (0 : ℚ) < 2)]
    norm_num
  have hall : allDev [((5 : ℚ), (39 : ℚ), (37 : ℚ))] := by
    intro x hx
    rw [List.mem_singleton.mp hx]
    exact hdev
  refine ⟨?_, by norm_num, ?_⟩
  · intro x hx
    rcases List.mem_cons.mp hx with h1 | h2
    · rw [h1]; exact hdev
    · rw [List.mem_singleton.mp h2]; exact hdev
  · rw [hbMonitorRun_dev_none 0 39 37 [(5, 39, 37)] hdev hall,
        if_neg (by
          rintro ⟨x, hx, hx5⟩
          rw [List.mem_singleton.mp hx] at hx5
          norm_num at hx5)]

/-- Claim C1 as amended: over any run of the heating-bed monitor in which
the fetched temperatures deviate beyond 1.0°C at every poll, starting with
no tracked entry, no alert is emitted while the time since the first
deviating poll is at most 5 minutes; exactly one alert is emitted as soon
as some poll is strictly later than 5 minutes after the first, and never a
second while the deviation persists; and a poll back within the threshold
deletes the tracked entry without emitting, so a recurrence starts a fresh
sustain period. -/
theorem C1_debounce (t₀ c₀ g₀ : ℚ) (rest : List (ℚ × ℚ × ℚ))
    (h₀ : 1 < |c₀ - g₀|) (h : allDev rest) :
    ((hbMonitorRun true (devPolls ((t₀, c₀, g₀) :: rest)) none).2 =
      if ∃ x ∈ rest, 5 < x.1 - t₀ then 1 else 0)
    ∧ (∀ (st : Option TempAlert) (now cur tgt : ℚ), ¬ 1 < |cur - tgt| →
        hbMonitorStep true now (some (some cur, some tgt)) st = (none, none)) := by
  constructor
  · rw [hbMonitorRun_dev_none t₀ c₀ g₀ rest h₀ h]
    by_cases hex : ∃ x ∈ rest, 5 < x.1 - t₀
    · rw [if_pos hex, if_pos hex]
    · rw [if_neg hex, if_neg hex]
  · intro st now cur tgt hnd
    simp [hbMonitorStep, hnd]

/-- Witness for C1 at a concrete run: deviating polls at minutes 0 and 6
(the second strictly past the 5-minute window) emit exactly one alert. -/
theorem C1_debounce_witness :
    (hbMonitorRun true (devPolls [((0 : ℚ), 39, 37), (6, 39, 37)]) none).2 =
      if ∃ x ∈ [((6 : ℚ), (39 : ℚ), (37 : ℚ))], 5 < x.1 - (0 : ℚ) then 1 else 0 :=
  (C1_debounce 0 39 37 [(6, 39, 37)]
    (by
      rw [show ((39 : ℚ) - 37) = 2 by norm_num,
          abs_of_pos (by norm_num : (0 : ℚ) < 2)]
      norm_num)
    (by
      intro x hx
      rw [List.mem_singleton.mp hx]
      rw [show ((39 : ℚ) - 37) = 2 by norm_num,
          abs_of_pos (by norm_num : (0 : ℚ) < 2)]
      norm_num)).1

/-! ### C3: alert emission per poll iteration -/

/-- The sterilizer deviation condition of one poll holds: active cycle,
all four readings present and non-zero, and a temperature or pressure
deviation beyond its threshold. -/
def sterFires (p : Option SterParams) : Prop :=
  ∃ pp ct tt cp tp, p = some pp ∧ pp.cycle_active = true ∧
    pp.cycle_info.current_temperature = some ct ∧
    pp.cycle_info.target_temperature = some tt ∧
    pp.cycle_info.current_pressure = some cp ∧
    pp.cycle_info.target_pressure = some tp ∧
    ct ≠ 0 ∧ tt ≠ 0 ∧ cp ≠ 0 ∧ tp ≠ 0 ∧
    (2 < |ct - tt| ∨ 1/5 < |cp - tp|)

theorem sterMonitorStep_of_fires (p : Option SterParams) (h : sterFires p) :
    sterMonitorStep true p = true := by
  obtain ⟨pp, ct, tt, cp, tp, hp, hact, h1, h2, h3, h4, hn1, hn2, hn3, hn4, hdev⟩ := h
  subst hp
  simp only [sterMonitorStep, hact, if_true, h1, h2, h3, h4]
  rw [if_pos ⟨hn1, hn2, hn3, hn4⟩, if_pos hdev]

/-- The phototherapy intensity-deviation condition of one poll holds. -/
def photoFiresIntensity (x : ℚ × Option PhotoParams) : Prop :=
  ∃ pp info ci, x.2 = some pp ∧ pp.session_active = true ∧
    pp.session_info = some info ∧ pp.current_intensity = some ci ∧
    5 < |ci - info.light_intensity.getD 100|

theorem photoMonitorStep_of_fires (now : ℚ) (p : Option PhotoParams)
    (h : photoFiresIntensity (now, p)) :
    PhotoAlertKind.intensityDeviation ∈ photoMonitorStep true now p := by
  obtain ⟨pp, info, ci, hp, hact, hinfo, hci, hdev⟩ := h
  simp only at hp
  subst hp
  simp only [photoMonitorStep, hact, if_true, hinfo, hci]
  exact List.mem_append_right _ (by simp [hdev])

/-- The surgical-light low-intensity condition of one poll holds. -/
def slFires (p : Option (Option ℚ)) : Prop :=
  ∃ v, p = some (some v) ∧ v < 10

theorem slMonitorStep_of_fires (p : Option (Option ℚ)) (h : slFires p) :
    slMonitorStep p = true := by
  obtain ⟨v, hp, hv⟩ := h
  subst hp
  simpa [slMonitorStep] using hv

/-- A sterilizer poll with an active cycle, non-zero readings and a 6°C
temperature deviation. -/
def sterDevInput : Option SterParams :=
  some ⟨true, ⟨some 140, some 134, some 2, some 2⟩⟩

theorem sterDevInput_fires : sterMonitorStep true sterDevInput = true := by
  apply sterMonitorStep_of_fires
  refine ⟨⟨true, ⟨some 140, some 134, some 2, some 2⟩⟩, 140, 134, 2, 2,
    rfl, rfl, rfl, rfl, rfl, rfl, by norm_num, by norm_num, by norm_num, by norm_num,
    Or.inl ?_⟩
  rw [show ((140 : ℚ) - 134) = 6 by norm_num,
      abs_of_pos (by norm_num : (0 : ℚ) < 6)]
  norm_num

/-- Claim C3, counterexample: the sterilizer monitor loop keeps no
per-condition state, so two consecutive poll iterations during one
uninterrupted deviation emit two alert records — more than one record per
onset. -/
theorem C3_counterexample :
    sterMonitorStep true sterDevInput = true ∧
    sterMonitorRun true [sterDevInput, sterDevInput] = 2 := by
  refine ⟨sterDevInput_fires, ?_⟩
  simp [sterMonitorRun, sterDevInput_fires]

/-- Claim C3 as amended: only the heating-bed monitor loop emits at most
one alert record per onset of its condition; the sterilizer, phototherapy
and surgical-light monitor loops keep no state between iterations and emit
an alert record (for the surgical light: invoke the alert handler) on
every poll iteration in which their condition holds. -/
theorem C3_alert_emission :
    (∀ (t₀ c₀ g₀ : ℚ) (rest : List (ℚ × ℚ × ℚ)), 1 < |c₀ - g₀| → allDev rest →
        (hbMonitorRun true (devPolls ((t₀, c₀, g₀) :: rest)) none).2 ≤ 1)
    ∧ (∀ l : List (Option SterParams), (∀ p ∈ l, sterFires p) →
        sterMonitorRun true l = l.length)
    ∧ (∀ l : List (ℚ × Option PhotoParams), (∀ x ∈ l, photoFiresIntensity x) →
        photoMonitorRunIntensity true l = l.length)
    ∧ (∀ l : List (Option (Option ℚ)), (∀ p ∈ l, slFires p) →
        slMonitorRun l = l.length) := by
  refine ⟨?_, ?_, ?_, ?_⟩
  · intro t₀ c₀ g₀ rest h₀ h
    rw [hbMonitorRun_dev_none t₀ c₀ g₀ rest h₀ h]
    by_cases hex : ∃ x ∈ rest, 5 < x.1 - t₀
    · rw [if_pos hex]
    · rw [if_neg hex]
      simp
  · intro l h
    induction l with
    | nil => rfl
    | cons hd tl ih =>
        have hhd := sterMonitorStep_of_fires hd (h hd (List.mem_cons_self _ _))
        have htl := ih fun p hp => h p (List.mem_cons_of_mem _ hp)
        simp [sterMonitorRun, hhd, htl, Nat.add_comm]
  · intro l h
    induction l with
    | nil => rfl
    | cons hd tl ih =>
        have hhd := photoMonitorStep_of_fires hd.1 hd.2
          (by simpa using h hd (List.mem_cons_self _ _))
        have htl := ih fun p hp => h p (List.mem_cons_of_mem _ hp)
        simp only [photoMonitorRunIntensity, htl]
        rw [if_pos hhd]
        simp [Nat.add_comm]
  · intro l h
    induction l with
    | nil => rfl
    | cons hd tl ih =>
        have hhd := slMonitorStep_of_fires hd (h hd (List.mem_cons_self _ _))
        have htl := ih fun p hp => h p (List.mem_cons_of_mem _ hp)
        simp [slMonitorRun, hhd, htl, Nat.add_comm]

/-- Witness for C3 at concrete runs: a two-poll deviating heating-bed run
emits at most one alert, while singleton deviating runs of the other three
loops emit one record per iteration. -/
theorem C3_alert_emission_witness :
    (hbMonitorRun true (devPolls [((0 : ℚ), 39, 37), (6, 39, 37)]) none).2 ≤ 1
    ∧ sterMonitorRun true [sterDevInput] = 1
    ∧ photoMonitorRunIntensity true [((0 : ℚ), some ⟨true, some ⟨0, 60, some 50⟩, some 80⟩)] = 1
    ∧ slMonitorRun [some (some 3)] = 1 := by
  have habs : ∀ a b : ℚ, 0 < a - b → |a - b| = a - b := fun a b hab => abs_of_pos hab
  refine ⟨?_, ?_, ?_, ?_⟩
  · apply C3_alert_emission.1 0 39 37 [(6, 39, 37)]
    · rw [habs 39 37 (by norm_num)]
      norm_num
    · intro x hx
      rw [List.mem_singleton.mp hx, habs 39 37 (by norm_num)]
      norm_num
  · apply C3_alert_emission.2.1
    intro p hp
    rw [List.mem_singleton.mp hp]
    exact ⟨⟨true, ⟨some 140, some 134, some 2, some 2⟩⟩, 140, 134, 2, 2,
      rfl, rfl, rfl, rfl, rfl, rfl, by norm_num, by norm_num, by norm_num,
      by norm_num, Or.inl (by rw [habs 140 134 (by norm_num)]; norm_num)⟩
  · apply C3_alert_emission.2.2.1
    intro x hx
    rw [List.mem_singleton.mp hx]
    exact ⟨⟨true, some ⟨0, 60, some 50⟩, some 80⟩, ⟨0, 60, some 50⟩, 80,
      rfl, rfl, rfl, rfl, by
        show (5 : ℚ) < |80 - (Option.getD (some 50) 100)|
        rw [show (Option.getD (some (50 : ℚ)) 100) = 50 from rfl,
            habs 80 50 (by norm_num)]
        norm_num⟩
  · apply C3_alert_emission.2.2.2
    intro p hp
    rw [List.mem_singleton.mp hp]
    exact ⟨3, rfl, by norm_num⟩

/-! ### C4 and C8: DeviceService behavior -/

theorem connect_device_always_false (d : Int) (ct : ConnectionType) (s : DSState) :
    DeviceService.connect_device d ct s = (false, s) := by
  unfold DeviceService.connect_device
  cases hdb : lookupKey s.db d with
  | none => rfl
  | some record =>
      by_cases hint : (lookupKey s.activeDevices (.pint d)).isNone
      · simp [hint, deviceFactoryCreateClassCall]
      · simp [hint]

/-- The session store of a service with a heating bed connected under key
`"1"` (the state the store would hold after a successful connect). -/
def c4Store : DSState :=
  ⟨[(.pstr "1", .heatingBed { HeatingBed.init "icu" with status := .connected })],
   [(1, ⟨"HeatingBed", .connected⟩)]⟩

/-- Claim C4: when `str(device_id)` is already a key of the session store,
`connect_device` returns false and changes nothing, and the manager's
connect wrapper therefore also reports false, leaves the service state
unchanged and registers no monitor task.  (In the source this holds for
every input: the membership guard compares the raw int id against string
keys, and the class-level `DeviceFactory.create_device` call raises before
any instance is constructed, so the call always falls into the `except`
branch returning false.) -/
theorem C4_connect_already_present (d : Int) (ct : ConnectionType)
    (s : DSState) (ms : List String)
    (_hp : (lookupKey s.activeDevices (.pstr (toString d))).isSome = true) :
    DeviceService.connect_device d ct s = (false, s)
    ∧ HeatingBedManager.connect_bed d ms s = (false, s, ms) := by
  refine ⟨connect_device_always_false d ct s, ?_⟩
  unfold HeatingBedManager.connect_bed
  rw [connect_device_always_false d .serial s]
  simp

/-- Witness for C4 at a store already holding device `"1"`. -/
theorem C4_connect_already_present_witness :
    DeviceService.connect_device 1 .serial c4Store = (false, c4Store)
    ∧ HeatingBedManager.connect_bed 1 [] c4Store = (false, c4Store, []) :=
  C4_connect_already_present 1 .serial c4Store [] (by decide)

/-- The session store of a service with a connected heating bed under key
`"1"` and a connected surgical light under key `"2"`. -/
def c8Store : DSState :=
  ⟨[(.pstr "1", .heatingBed { HeatingBed.init "icu" with status := .connected }),
    (.pstr "2", .surgicalLight { SurgicalLight.init with status := .connected })],
   [(1, ⟨"HeatingBed", .connected⟩), (2, ⟨"SurgicalLight", .connected⟩)]⟩

/-- Claim C8, code-bug evaluation: for a connected heating bed the claim's
"never raises" fails — `get_device_status` propagates the
`NotImplementedError` of the inherited `BaseDevice.get_status`; even for a
surgical light (the only variant overriding the accessors) it raises
`AttributeError` at `device.last_update`, which no class ever assigns.
Only the absent-id branch behaves as claimed, returning `None`. -/
theorem C8_get_device_status_raises :
    DeviceService.get_device_status 1 c8Store = .error .notImplementedError
    ∧ DeviceService.get_device_status 2 c8Store = .error .attributeError
    ∧ DeviceService.get_device_status 3 c8Store = .ok none := by
  refine ⟨?_, ?_, ?_⟩ <;> rfl

/-! ### C5 and C6: sterilizer cycles and phototherapy sessions -/

/-- Claim C5: for a connected sterilizer, `start_cycle` resolves its
parameters from the preset table overridden field-by-field by explicit
arguments (`standard` with no arguments yields 134/20, `standard` with
`temperature=120` yields 120/20); it fails with `InvalidCycle`
(`ValueError`) iff the named cycle type is unknown and no explicit
parameter was given; and every successful call stores, under a fresh id
not previously in `active_cycles`, a record with status `running`. -/
theorem C5_start_cycle (t : Option ℚ) (d : Option Int) (ct : String) (now : ℚ)
    (s : SterilizerState) (hc : s.status = .connected)
    (hinv : ∀ k ∈ s.active_cycles.map Prod.fst, k < s.nextId) :
    ((Sterilizer.start_cycle t d ct now s).1 = .error .valueError ↔
      cycleTypes ct = none ∧ t = none ∧ d = none)
    ∧ (Sterilizer.start_cycle none none "standard" now s =
        (.ok s.nextId,
         { s with
             active_cycles :=
               setKey s.active_cycles s.nextId ⟨"standard", 134, 20, now, .running⟩,
             nextId := s.nextId + 1 }))
    ∧ (Sterilizer.start_cycle (some 120) none "standard" now s =
        (.ok s.nextId,
         { s with
             active_cycles :=
               setKey s.active_cycles s.nextId ⟨"standard", 120, 20, now, .running⟩,
             nextId := s.nextId + 1 }))
    ∧ (∀ pt pd, cycleTypes ct = some (pt, pd) →
        Sterilizer.start_cycle t d ct now s =
          (.ok s.nextId,
           { s with
               active_cycles :=
                 setKey s.active_cycles s.nextId ⟨ct, t.getD pt, d.getD pd, now, .running⟩,
               nextId := s.nextId + 1 }))
    ∧ (∀ cid s', Sterilizer.start_cycle t d ct now s = (.ok cid, s') →
        cid ∉ s.active_cycles.map Prod.fst ∧
        ∃ r, lookupKey s'.active_cycles cid = some r ∧ r.cstatus = .running) := by
  have hnc : ¬ s.status ≠ DeviceStatus.connected := by
    rw [hc]
    simp
  have hfresh : s.nextId ∉ s.active_cycles.map Prod.fst := by
    intro hmem
    exact absurd (hinv s.nextId hmem) (lt_irrefl _)
  refine ⟨?_, ?_, ?_, ?_, ?_⟩
  · unfold Sterilizer.start_cycle
    rw [if_neg hnc]
    cases hbase : cycleTypes ct with
    | some pr =>
        cases t with
        | some tv => cases d with
            | some dv => simp
            | none => simp [hbase]
        | none => cases d with
            | some dv => simp [hbase]
            | none => simp [hbase]
    | none =>
        cases t with
        | some tv => cases d with
            | some dv => simp
            | none => simp [hbase]
        | none => cases d with
            | some dv => simp [hbase]
            | none => simp [hbase]
  · unfold Sterilizer.start_cycle
    rw [if_neg hnc]
    simp [cycleTypes]
  · unfold Sterilizer.start_cycle
    rw [if_neg hnc]
    simp [cycleTypes]
  · intro pt pd hbase
    unfold Sterilizer.start_cycle
    rw [if_neg hnc]
    cases t with
    | some tv => cases d with
        | some dv => simp [hbase]
        | none => simp [hbase]
    | none => cases d with
        | some dv => simp [hbase]
        | none => simp [hbase]
  · intro cid s' hok
    unfold Sterilizer.start_cycle at hok
    rw [if_neg hnc] at hok
    have key : cid = s.nextId ∧
        s'.active_cycles = setKey s.active_cycles s.nextId
          ⟨ct, (match t with
                | some tv => some tv
                | none => (cycleTypes ct).map Prod.fst).getD 0,
           (match d with
            | some dv => some dv
            | none => (cycleTypes ct).map Prod.snd).getD 0, now, .running⟩ ∨ False := by
      cases hbase : cycleTypes ct with
      | some pr =>
          cases t with
          | some tv => cases d with
              | some dv =>
                  simp [hbase] at hok
                  exact Or.inl ⟨hok.1.symm, by rw [← hok.2]; simp [hbase]⟩
              | none =>
                  simp [hbase] at hok
                  exact Or.inl ⟨hok.1.symm, by rw [← hok.2]; simp [hbase]⟩
          | none => cases d with
              | some dv =>
                  simp [hbase] at hok
                  exact Or.inl ⟨hok.1.symm, by rw [← hok.2]; simp [hbase]⟩
              | none =>
                  simp [hbase] at hok
                  exact Or.inl ⟨hok.1.symm, by rw [← hok.2]; simp [hbase]⟩
      | none =>
          cases t with
          | some tv => cases d with
              | some dv =>
                  simp [hbase] at hok
                  exact Or.inl ⟨hok.1.symm, by rw [← hok.2]; simp [hbase]⟩
              | none => simp [hbase] at hok
          | none => cases d with
              | some dv => simp [hbase] at hok
              | none => simp [hbase] at hok
    rcases key with ⟨hcid, hs'⟩ | hfalse
    · subst hcid
      refine ⟨hfresh, ?_⟩
      rw [hs', lookupKey_setKey_self]
      exact ⟨_, rfl, rfl⟩
    · exact absurd hfalse (by simp)

/-- Witness for C5 at a connected sterilizer with empty cycle table:
standard presets, the per-field override, the `InvalidCycle` iff at an
unknown type, and freshness of the returned id. -/
theorem C5_start_cycle_witness :
    ((Sterilizer.start_cycle none none "bogus" 0
        ⟨.connected, [], 0⟩).1 = .error .valueError ↔
      cycleTypes "bogus" = none ∧ (none : Option ℚ) = none ∧ (none : Option Int) = none)
    ∧ (Sterilizer.start_cycle none none "standard" 0 ⟨.connected, [], 0⟩ =
        (.ok 0, ⟨.connected, [(0, ⟨"standard", 134, 20, 0, .running⟩)], 1⟩))
    ∧ (Sterilizer.start_cycle (some 120) none "standard" 0 ⟨.connected, [], 0⟩ =
        (.ok 0, ⟨.connected, [(0, ⟨"standard", 120, 20, 0, .running⟩)], 1⟩)) := by
  have h1 := C5_start_cycle none none "bogus" 0 ⟨.connected, [], 0⟩ rfl (by simp)
  have h2 := C5_start_cycle none none "standard" 0 ⟨.connected, [], 0⟩ rfl (by simp)
  have h3 := C5_start_cycle (some 120) none "standard" 0 ⟨.connected, [], 0⟩ rfl (by simp)
  exact ⟨h1.1, h2.2.1, h3.2.2.1⟩

/-- Claim C6: `start_session` fails with `NotConnected` (`RuntimeError`)
unless the light is connected and with `OutOfRange` (`ValueError`) unless
`0 <= intensity <= 100`, in both cases creating no session record;
otherwise it stores, under a fresh id, a record with status `running`
holding exactly the passed duration and intensity, which `get_session`
returns; `get_session` fails with `NotFound` (`ValueError`) on every id
not in `active_sessions`. -/
theorem C6_phototherapy_sessions (dur inten : Int) (now : ℚ) (s : PhotoState)
    (hinv : ∀ k ∈ s.active_sessions.map Prod.fst, k < s.nextId) :
    (s.status ≠ .connected →
        PhototherapyLight.start_session dur inten now s = (.error .runtimeError, s))
    ∧ (s.status = .connected → ¬ (0 ≤ inten ∧ inten ≤ 100) →
        PhototherapyLight.start_session dur inten now s = (.error .valueError, s))
    ∧ (s.status = .connected → 0 ≤ inten → inten ≤ 100 →
        PhototherapyLight.start_session dur inten now s =
          (.ok s.nextId,
           { s with
               active_sessions :=
                 setKey s.active_sessions s.nextId ⟨dur, inten, now, .running⟩,
               nextId := s.nextId + 1 })
        ∧ s.nextId ∉ s.active_sessions.map Prod.fst
        ∧ PhototherapyLight.get_session s.nextId
            (PhototherapyLight.start_session dur inten now s).2 =
            .ok ⟨dur, inten, now, .running⟩)
    ∧ (∀ sid, sid ∉ s.active_sessions.map Prod.fst →
        PhototherapyLight.get_session sid s = .error .valueError) := by
  have hfresh : s.nextId ∉ s.active_sessions.map Prod.fst := by
    intro hmem
    exact absurd (hinv s.nextId hmem) (lt_irrefl _)
  refine ⟨?_, ?_, ?_, ?_⟩
  · intro hnc
    unfold PhototherapyLight.start_session
    rw [if_pos hnc]
  · intro hc hrange
    unfold PhototherapyLight.start_session
    rw [if_neg (by rw [hc]; simp), if_pos hrange]
  · intro hc h0 h100
    have heq : PhototherapyLight.start_session dur inten now s =
        (.ok s.nextId,
         { s with
             active_sessions :=
               setKey s.active_sessions s.nextId ⟨dur, inten, now, .running⟩,
             nextId := s.nextId + 1 }) := by
      unfold PhototherapyLight.start_session
      rw [if_neg (by rw [hc]; simp), if_neg (by simp [h0, h100])]
    refine ⟨heq, hfresh, ?_⟩
    rw [heq]
    unfold PhototherapyLight.get_session
    simp only
    rw [lookupKey_setKey_self]
  · intro sid hsid
    unfold PhototherapyLight.get_session
    rw [lookupKey_eq_none_of_not_mem_keys s.active_sessions sid hsid]

/-- Witness for C6 at a connected light with empty session table: an
out-of-range intensity is rejected without a record, an in-range session
is stored and read back exactly, and an unknown id yields `NotFound`. -/
theorem C6_phototherapy_sessions_witness :
    (PhototherapyLight.start_session 30 101 0 ⟨.connected, [], 0⟩ =
      (.error .valueError, ⟨.connected, [], 0⟩))
    ∧ (PhototherapyLight.start_session 30 75 0 ⟨.connected, [], 0⟩ =
        (.ok 0, ⟨.connected, [(0, ⟨30, 75, 0, .running⟩)], 1⟩))
    ∧ PhototherapyLight.get_session 5 ⟨.connected, [], 0⟩ = .error .valueError := by
  have h1 := C6_phototherapy_sessions 30 101 0 ⟨.connected, [], 0⟩ (by simp)
  have h2 := C6_phototherapy_sessions 30 75 0 ⟨.connected, [], 0⟩ (by simp)
  refine ⟨h1.2.1 rfl (by norm_num), ?_, h2.2.2.2 5 (by simp)⟩
  have := h2.2.2.1 rfl (by norm_num) (by norm_num)
  exact this.1

/-! ### C7: surgical-light parameter validation -/

/-- Claim C7, counterexample: `set_parameter("camera_active", 42)` returns
true (the source stores `bool(value)` for any value), although an integer
is not a type-correct value for the boolean parameter `camera_active`
declared by the spec. -/
theorem C7_counterexample :
    (SurgicalLight.set_parameter "camera_active" (.vint 42) SurgicalLight.init).1 = true
    ∧ specTypeCorrect "camera_active" (.vint 42) = false
    ∧ (SurgicalLight.set_parameter "camera_active" (.vint 42) SurgicalLight.init).2.camera_active = true := by
  refine ⟨?_, rfl, ?_⟩ <;> rfl

/-- Claim C7 as amended: `set_parameter` is total (never raises) and
returns false, mutating nothing, for an unsupported name; for the numeric
parameters it returns true exactly when `float(value)` succeeds and the
conversion lies in the inclusive range `[0, 100]`, storing the conversion,
and mutates nothing when it returns false; `camera_active` accepts every
value, storing its truthiness — not only type-correct booleans. -/
theorem C7_set_parameter (v : PyVal) (s : SurgicalLightState) :
    (∀ name, name ≠ "light_intensity" → name ≠ "focus_position" →
        name ≠ "camera_active" → SurgicalLight.set_parameter name v s = (false, s))
    ∧ ((SurgicalLight.set_parameter "light_intensity" v s).1 = true ↔
        ∃ x, pyFloat v = some x ∧ 0 ≤ x ∧ x ≤ 100)
    ∧ (∀ x, pyFloat v = some x → 0 ≤ x → x ≤ 100 →
        SurgicalLight.set_parameter "light_intensity" v s =
          (true, { s with light_intensity := x }))
    ∧ ((SurgicalLight.set_parameter "light_intensity" v s).1 = false →
        (SurgicalLight.set_parameter "light_intensity" v s).2 = s)
    ∧ ((SurgicalLight.set_parameter "focus_position" v s).1 = true ↔
        ∃ x, pyFloat v = some x ∧ 0 ≤ x ∧ x ≤ 100)
    ∧ (∀ x, pyFloat v = some x → 0 ≤ x → x ≤ 100 →
        SurgicalLight.set_parameter "focus_position" v s =
          (true, { s with focus_position := x }))
    ∧ ((SurgicalLight.set_parameter "focus_position" v s).1 = false →
        (SurgicalLight.set_parameter "focus_position" v s).2 = s)
    ∧ (SurgicalLight.set_parameter "camera_active" v s =
        (true, { s with camera_active := pyTruthy v })) := by
  refine ⟨?_, ?_, ?_, ?_, ?_, ?_, ?_, ?_⟩
  · intro name h1 h2 h3
    unfold SurgicalLight.set_parameter
    rw [if_pos ⟨h1, h2, h3⟩]
  · unfold SurgicalLight.set_parameter
    cases hx : pyFloat v with
    | none => simp [hx]
    | some x =>
        by_cases hr : 0 ≤ x ∧ x ≤ 100
        · simp [hx, hr]
        · simp [hx, hr]
  · intro x hx h0 h100
    unfold SurgicalLight.set_parameter
    simp [hx, h0, h100]
  · unfold SurgicalLight.set_parameter
    cases hx : pyFloat v with
    | none => simp [hx]
    | some x =>
        by_cases hr : 0 ≤ x ∧ x ≤ 100
        · simp [hx, hr]
        · simp [hx, hr]
  · unfold SurgicalLight.set_parameter
    cases hx : pyFloat v with
    | none => simp [hx]
    | some x =>
        by_cases hr : 0 ≤ x ∧ x ≤ 100
        · simp [hx, hr]
        · simp [hx, hr]
  · intro x hx h0 h100
    unfold SurgicalLight.set_parameter
    simp [hx, h0, h100]
  · unfold SurgicalLight.set_parameter
    cases hx : pyFloat v with
    | none => simp [hx]
    | some x =>
        by_cases hr : 0 ≤ x ∧ x ≤ 100
        · simp [hx, hr]
        · simp [hx, hr]
  · unfold SurgicalLight.set_parameter
    simp

/-- Witness for C7: the inclusive bound 100 is accepted and stored, 101 is
rejected without mutation, an unknown name is rejected, and
`camera_active` coerces an integer. -/
theorem C7_set_parameter_witness :
    (SurgicalLight.set_parameter "light_intensity" (.vint 100) SurgicalLight.init =
      (true, { SurgicalLight.init with light_intensity := 100 }))
    ∧ ((SurgicalLight.set_parameter "light_intensity" (.vint 101) SurgicalLight.init).1 = false →
        (SurgicalLight.set_parameter "light_intensity" (.vint 101) SurgicalLight.init).2 =
          SurgicalLight.init)
    ∧ (SurgicalLight.set_parameter "brightness" (.vint 5) SurgicalLight.init =
        (false, SurgicalLight.init))
    ∧ (SurgicalLight.set_parameter "camera_active" (.vint 7) SurgicalLight.init =
        (true, { SurgicalLight.init with camera_active := pyTruthy (.vint 7) })) := by
  have h100 := C7_set_parameter (.vint 100) SurgicalLight.init
  have h101 := C7_set_parameter (.vint 101) SurgicalLight.init
  have h5 := C7_set_parameter (.vint 5) SurgicalLight.init
  have h7 := C7_set_parameter (.vint 7) SurgicalLight.init
  refine ⟨?_, h101.2.2.2.1, h5.1 "brightness" (by decide) (by decide) (by decide),
    h7.2.2.2.2.2.2.2⟩
  have := h100.2.2.1 100 rfl (by norm_num) (by norm_num)
  simpa using this

/-! ### C10: sterilizer deviation-rule guard -/

theorem sterMonitorStep_true_elim (dbEx : Bool) (p : Option SterParams)
    (h : sterMonitorStep dbEx p = true) :
    ∃ pp ct tt cp tp, p = some pp ∧ pp.cycle_active = true ∧
      pp.cycle_info.current_temperature = some ct ∧ ct ≠ 0 ∧
      pp.cycle_info.target_temperature = some tt ∧ tt ≠ 0 ∧
      pp.cycle_info.current_pressure = some cp ∧ cp ≠ 0 ∧
      pp.cycle_info.target_pressure = some tp ∧ tp ≠ 0 ∧
      (2 < |ct - tt| ∨ 1/5 < |cp - tp|) ∧ dbEx = true := by
  match p with
  | none => simp [sterMonitorStep] at h
  | some pp =>
      simp only [sterMonitorStep] at h
      by_cases hact : pp.cycle_active = true
      case neg => simp [hact] at h
      case pos =>
      rw [if_pos hact] at h
      cases h1 : pp.cycle_info.current_temperature with
      | none => rw [h1] at h; simp at h
      | some ct =>
      cases h2 : pp.cycle_info.target_temperature with
      | none => rw [h1, h2] at h; simp at h
      | some tt =>
      cases h3 : pp.cycle_info.current_pressure with
      | none => rw [h1, h2, h3] at h; simp at h
      | some cp =>
      cases h4 : pp.cycle_info.target_pressure with
      | none => rw [h1, h2, h3, h4] at h; simp at h
      | some tp =>
      rw [h1, h2, h3, h4] at h
      simp only at h
      by_cases hnz : ct ≠ 0 ∧ tt ≠ 0 ∧ cp ≠ 0 ∧ tp ≠ 0
      · rw [if_pos hnz] at h
        by_cases hdev : 2 < |ct - tt| ∨ 1/5 < |cp - tp|
        · rw [if_pos hdev] at h
          exact ⟨pp, ct, tt, cp, tp, rfl, hact, h1, hnz.1, h2, hnz.2.1,
            h3, hnz.2.2.1, h4, hnz.2.2.2, hdev, h⟩
        · rw [if_neg hdev] at h
          cases h
      · rw [if_neg hnz] at h
        cases h

/-- Claim C10: the sterilizer monitor evaluates its deviation rule only
when all four readings are present and non-zero (Python truthiness of the
`and`-chain), and when any reading is missing or zero the iteration emits
no alert regardless of the other deviations. -/
theorem C10_sterilizer_guard :
    (∀ (dbEx : Bool) (p : Option SterParams), sterMonitorStep dbEx p = true →
        ∃ pp ct tt cp tp, p = some pp ∧
          pp.cycle_info.current_temperature = some ct ∧ ct ≠ 0 ∧
          pp.cycle_info.target_temperature = some tt ∧ tt ≠ 0 ∧
          pp.cycle_info.current_pressure = some cp ∧ cp ≠ 0 ∧
          pp.cycle_info.target_pressure = some tp ∧ tp ≠ 0)
    ∧ (∀ (dbEx : Bool) (pp : SterParams),
        (pp.cycle_info.current_temperature = none ∨
         pp.cycle_info.current_temperature = some 0 ∨
         pp.cycle_info.target_temperature = none ∨
         pp.cycle_info.target_temperature = some 0 ∨
         pp.cycle_info.current_pressure = none ∨
         pp.cycle_info.current_pressure = some 0 ∨
         pp.cycle_info.target_pressure = none ∨
         pp.cycle_info.target_pressure = some 0) →
        sterMonitorStep dbEx (some pp) = false) := by
  constructor
  · intro dbEx p h
    obtain ⟨pp, ct, tt, cp, tp, hp, _, h1, hn1, h2, hn2, h3, hn3, h4, hn4, _, _⟩ :=
      sterMonitorStep_true_elim dbEx p h
    exact ⟨pp, ct, tt, cp, tp, hp, h1, hn1, h2, hn2, h3, hn3, h4, hn4⟩
  · intro dbEx pp hcase
    cases hval : sterMonitorStep dbEx (some pp) with
    | false => rfl
    | true =>
        obtain ⟨pp', ct, tt, cp, tp, hp, _, h1, hn1, h2, hn2, h3, hn3, h4, hn4, _, _⟩ :=
          sterMonitorStep_true_elim dbEx (some pp) hval
        cases hp
        rcases hcase with hc | hc | hc | hc | hc | hc | hc | hc
        · rw [hc] at h1; cases h1
        · rw [hc] at h1
          cases h1
          exact absurd rfl hn1
        · rw [hc] at h2; cases h2
        · rw [hc] at h2
          cases h2
          exact absurd rfl hn2
        · rw [hc] at h3; cases h3
        · rw [hc] at h3
          cases h3
          exact absurd rfl hn3
        · rw [hc] at h4; cases h4
        · rw [hc] at h4
          cases h4
          exact absurd rfl hn4

/-- Witness for C10: a poll with a zero target pressure emits nothing
despite a 100°C temperature deviation. -/
theorem C10_sterilizer_guard_witness :
    sterMonitorStep true (some ⟨true, ⟨some 221, some 121, some 2, some 0⟩⟩) = false :=
  C10_sterilizer_guard.2 true ⟨true, ⟨some 221, some 121, some 2, some 0⟩⟩
    (by
      right; right; right; right; right; right; right
      rfl)

/-! ### C9: alert-table invariant of the heating-bed manager -/

theorem hbMonitorStep_noreading (dbEx : Bool) (now : ℚ) (st : Option TempAlert) :
    hbMonitorStep dbEx now none st = (st, none) := rfl

theorem hbMonitorStep_missingTemp (dbEx : Bool) (now : ℚ)
    (curO tgtO : Option ℚ) (st : Option TempAlert)
    (h : curO = none ∨ tgtO = none) :
    hbMonitorStep dbEx now (some (curO, tgtO)) st = (st, none) := by
  rcases h with h | h
  · subst h
    cases tgtO <;> rfl
  · subst h
    cases curO <;> rfl

theorem hbMonitorStep_none_dev (dbEx : Bool) (now c g : ℚ) (hdev : 1 < |c - g|) :
    hbMonitorStep dbEx now (some (some c, some g)) none = (some ⟨now, false⟩, none) := by
  rw [hbMonitorStep_dev dbEx now c g none hdev]
  simp only [Option.getD_none]
  rw [if_neg (by norm_num)]

theorem hbMonitorStep_clear (dbEx : Bool) (now c g : ℚ) (st : Option TempAlert)
    (hdev : ¬ 1 < |c - g|) :
    hbMonitorStep dbEx now (some (some c, some g)) st = (none, none) := by
  simp [hbMonitorStep, hdev]

/-- Claim C9: at every reachable state of the heating-bed monitoring
system, the alert table holds at most one entry per device key (the alert
kind is the constant `temperature_deviation`, so at most one per
`(device_id, alert_kind)` pair); an entry appears only at an iteration
that observes the deviation for a device with no tracked entry, armed as
`first_detected = now, alert_sent = false`; an iteration observing the
condition cleared removes the device's entry; and `stop_monitoring`
removes it. -/
theorem C9_alert_table_invariant (s : HBMgrState) (h : s.Reachable) :
    ((s.alerts.map Prod.fst).Nodup ∧
      ∀ k : String, (s.alerts.filter (fun p => p.1 = k)).length ≤ 1)
    ∧ (∀ (e : HBMgrEvent) (k : String), lookupKey s.alerts k = none →
        (lookupKey (s.step e).alerts k).isSome = true →
        ∃ d dbEx now c g, e = .iter d dbEx now (some (some c, some g)) ∧
          toString d = k ∧ 1 < |c - g| ∧
          lookupKey (s.step e).alerts k = some ⟨now, false⟩)
    ∧ (∀ (d : Int) (dbEx : Bool) (now c g : ℚ), ¬ 1 < |c - g| →
        lookupKey (s.step (.iter d dbEx now (some (some c, some g)))).alerts
          (toString d) = none)
    ∧ (∀ d : Int, lookupKey (s.step (.stopMon d)).alerts (toString d) = none) := by
  obtain ⟨hnd, hsub⟩ := HBMgrState.inv_of_reachable s h
  have habs : ∀ d : Int, toString d ∉ s.tasks →
      lookupKey s.alerts (toString d) = none := by
    intro d hd
    apply lookupKey_eq_none_of_not_mem_keys
    intro hmem
    exact hd (hsub _ hmem)
  refine ⟨⟨hnd, fun k => count_le_one_of_nodup_keys s.alerts hnd k⟩, ?_, ?_, ?_⟩
  · intro e k hnone hsome
    cases e with
    | startMon d =>
        exfalso
        have halerts : (s.step (.startMon d)).alerts = s.alerts := by
          simp only [HBMgrState.step]
          by_cases hmem : toString d ∈ s.tasks
          · rw [if_pos hmem]
          · rw [if_neg hmem]
        rw [halerts, hnone] at hsome
        simp at hsome
    | stopMon d =>
        exfalso
        simp only [HBMgrState.step] at hsome
        by_cases hmem : toString d ∈ s.tasks
        · rw [if_pos hmem] at hsome
          by_cases hk : toString d = k
          · rw [← hk, lookupKey_eraseKey_self] at hsome
            simp at hsome
          · rw [lookupKey_eraseKey_ne s.alerts (toString d) k hk, hnone] at hsome
            simp at hsome
        · rw [if_neg hmem, hnone] at hsome
          simp at hsome
    | iter d dbEx now reading =>
        simp only [HBMgrState.step] at hsome ⊢
        by_cases hmem : toString d ∈ s.tasks
        · rw [if_pos hmem] at hsome ⊢
          by_cases hk : toString d = k
          · subst hk
            unfold hbIterTable at hsome ⊢
            rw [hnone] at hsome ⊢
            cases reading with
            | none =>
                exfalso
                rw [hbMonitorStep_noreading] at hsome
                simp only at hsome
                rw [lookupKey_eraseKey_self] at hsome
                simp at hsome
            | some pr =>
                obtain ⟨curO, tgtO⟩ := pr
                cases curO with
                | none =>
                    exfalso
                    rw [hbMonitorStep_missingTemp dbEx now none tgtO none (Or.inl rfl)] at hsome
                    simp only at hsome
                    rw [lookupKey_eraseKey_self] at hsome
                    simp at hsome
                | some c =>
                    cases tgtO with
                    | none =>
                        exfalso
                        rw [hbMonitorStep_missingTemp dbEx now (some c) none none (Or.inr rfl)]
                          at hsome
                        simp only at hsome
                        rw [lookupKey_eraseKey_self] at hsome
                        simp at hsome
                    | some g =>
                        by_cases hdev : 1 < |c - g|
                        · refine ⟨d, dbEx, now, c, g, rfl, rfl, hdev, ?_⟩
                          rw [hbMonitorStep_none_dev dbEx now c g hdev]
                          simp only
                          rw [lookupKey_setKey_self]
                        · exfalso
                          rw [hbMonitorStep_clear dbEx now c g none hdev] at hsome
                          simp only at hsome
                          rw [lookupKey_eraseKey_self] at hsome
                          simp at hsome
          · exfalso
            unfold hbIterTable at hsome
            cases hstep : (hbMonitorStep dbEx now reading
                (lookupKey s.alerts (toString d))).1 with
            | some a =>
                rw [hstep] at hsome
                simp only at hsome
                rw [lookupKey_setKey_ne s.alerts (toString d) k a hk, hnone] at hsome
                simp at hsome
            | none =>
                rw [hstep] at hsome
                simp only at hsome
                rw [lookupKey_eraseKey_ne s.alerts (toString d) k hk, hnone] at hsome
                simp at hsome
        · rw [if_neg hmem, hnone] at hsome
          simp at hsome
  · intro d dbEx now c g hdev
    simp only [HBMgrState.step]
    by_cases hmem : toString d ∈ s.tasks
    · rw [if_pos hmem]
      unfold hbIterTable
      rw [hbMonitorStep_clear dbEx now c g (lookupKey s.alerts (toString d)) hdev]
      simp only
      rw [lookupKey_eraseKey_self]
    · rw [if_neg hmem]
      exact habs d hmem
  · intro d
    simp only [HBMgrState.step]
    by_cases hmem : toString d ∈ s.tasks
    · rw [if_pos hmem]
      simp only
      rw [lookupKey_eraseKey_self]
    · rw [if_neg hmem]
      exact habs d hmem

/-- Witness for C9: applied at the empty initial manager state and at the
reachable state with a registered task for device 0, where an iteration
observing no deviation leaves no alert entry and a stop clears it. -/
theorem C9_alert_table_invariant_witness :
    (((⟨[], []⟩ : HBMgrState).alerts.map Prod.fst).Nodup)
    ∧ lookupKey (((⟨[], []⟩ : HBMgrState).step (.stopMon 0)).alerts)
        (toString (0 : Int)) = none
    ∧ lookupKey (((HBMgrState.step ⟨[], []⟩ (.startMon 0)).step
          (.iter 0 true 0 (some (some 37, some 37)))).alerts)
        (toString (0 : Int)) = none :=
  ⟨(C9_alert_table_invariant ⟨[], []⟩ .init).1.1,
   (C9_alert_table_invariant ⟨[], []⟩ .init).2.2.2 0,
   (C9_alert_table_invariant (HBMgrState.step ⟨[], []⟩ (.startMon 0))
      (.step (.startMon 0) .init)).2.2.1 0 true 0 37 37
      (by rw [sub_self, abs_zero]; norm_num)⟩

end Mdms
